import Mathlib

/-!
Verification development for the stateful-rpc library.

The definitions below are a shallow embedding of the TypeScript sources:
`RPCSourceChannel` and the type utilities (src/unnamed/part_000),
`RPCSource` with its static `start` dispatcher and `#initChannel`
(src/unnamed/part_001), and the channel endpoint `RPCChannel` /
`ChannelManager` / `Channel` together with the wire contract
(src/unnamed/part_002).  Channel ids are embedded as strings; JavaScript
values appearing on the wire and in handler method trees are embedded by
the inductive type `Val`.  Event listeners are not modelled individually:
each channel records the ordered log of events it emitted, which is what
the ordering and occurrence properties are about.
-/

namespace StatefulRpc

/-- Embedding of the JavaScript values the protocol manipulates: strings,
numbers, `Error` objects (identified by their message), arrays, plain
objects (own enumerable fields, in order), functions (identified by a tag,
applied through an external table), `RPCSource` instances (identified by a
store id), `null` and `undefined`. -/
inductive Val where
  | str (s : String)
  | num (n : Nat)
  | err (msg : String)
  | arr (elems : List Val)
  | obj (fields : List (String × Val))
  | fn (tag : Nat)
  | source (sid : Nat)
  | jsNull
  | jsUndefined

/-- `REMOTE_ACTION.RESPONSE_OK` from contract.ts. -/
def REMOTE_RESPONSE_OK : Nat := 0
/-- `REMOTE_ACTION.CLOSE` from contract.ts. -/
def REMOTE_CLOSE : Nat := 1
/-- `REMOTE_ACTION.STATE` from contract.ts. -/
def REMOTE_STATE : Nat := 2
/-- `REMOTE_ACTION.RESPONSE_ERROR` from contract.ts. -/
def REMOTE_RESPONSE_ERROR : Nat := 3
/-- `REMOTE_ACTION.EVENT` from contract.ts. -/
def REMOTE_EVENT : Nat := 4

/-- `CLIENT_ACTION.CALL` from contract.ts. -/
def CLIENT_CALL : Nat := 0
/-- `CLIENT_ACTION.CLOSE` from contract.ts. -/
def CLIENT_CLOSE : Nat := 1
/-- `CLIENT_ACTION.CREATE` from contract.ts. -/
def CLIENT_CREATE : Nat := 2
/-- `CLIENT_ACTION.NOTIFY` from contract.ts. -/
def CLIENT_NOTIFY : Nat := 3

/-- A source→client wire message: the first element of the sent array
(`dest`, which the contract declares to be an array of channel ids, but
which the implementation occasionally fills with a bare id), the action
code, and the remaining payload. -/
structure WireMsg where
  dest : Val
  action : Nat
  payload : List Val

/-! ### Association-list helpers (embedding of JavaScript `Map`). -/

/-- `Map.get`. -/
def lookupK [DecidableEq α] : List (α × β) → α → Option β
  | [], _ => none
  | (k', v) :: t, k => if k' = k then some v else lookupK t k

/-- `Map.set`: replace in place, or append a fresh entry. -/
def setK [DecidableEq α] : List (α × β) → α → β → List (α × β)
  | [], k, v => [(k, v)]
  | (k', v') :: t, k, v => if k' = k then (k, v) :: t else (k', v') :: setK t k v

/-- `Map.delete` (a `Map` holds each key at most once). -/
def removeK [DecidableEq α] : List (α × β) → α → List (α × β)
  | [], _ => []
  | (k', v') :: t, k => if k' = k then t else (k', v') :: removeK t k

/-- `Map.has`. -/
def containsK [DecidableEq α] (l : List (α × β)) (k : α) : Bool :=
  (lookupK l k).isSome

/-! ### Channel endpoint (`Channel` in RPCChannel.ts, src/unnamed/part_002). -/

/-- The state of a `Promise.withResolvers` resolver pair. -/
inductive PromiseSt where
  | pending
  | resolved
  | rejected (reason : Val)

/-- `resolver.resolve(...)`: settles a pending promise, no-op otherwise. -/
def PromiseSt.resolve : PromiseSt → PromiseSt
  | .pending => .resolved
  | p => p

/-- `resolver.reject(reason)`: settles a pending promise, no-op otherwise. -/
def PromiseSt.reject (r : Val) : PromiseSt → PromiseSt
  | .pending => .rejected r
  | p => p

/-- One event emitted on a channel-endpoint channel's event hub, in
emission order.  `stateFirst` is the single-argument `state` emission that
follows the first `STATE`; `stateNext` carries `(newState, oldState)`. -/
inductive CEvent where
  | ready
  | stateFirst (v : Val)
  | stateNext (new old : Val)
  | error (reason : Val)
  | close (reason : Val)

/-- The channel-endpoint `Channel` object: replicated `state`, `ready` and
`closed` flags, the readiness promise, the ordered log of emitted events,
the monotone call-id counter, the set of registered pending-call response
listeners, and the log of messages this channel sent to the source
(`sendToChannel`: action code plus arguments). -/
structure CChan where
  channelId : String
  state : Val := .jsUndefined
  ready : Bool := false
  closed : Bool := false
  promise : PromiseSt := .pending
  events : List CEvent := []
  currentCallId : Nat := 0
  pendingCalls : List Nat := []
  sentC : List (Nat × List Val) := []

/-- `Channel.onState`: drop if closed; store the state, become ready; on
the first `STATE` emit `ready` then single-argument `state` and resolve the
readiness promise, otherwise emit `state(new, old)`. -/
def chOnState (c : CChan) (v : Val) : CChan :=
  if c.closed then c else
  let oldState := c.state
  let wasReady := c.ready
  let c := { c with state := v, ready := true }
  if !wasReady then
    { c with events := c.events ++ [CEvent.ready, CEvent.stateFirst v],
             promise := c.promise.resolve }
  else
    { c with events := c.events ++ [CEvent.stateNext v oldState] }

/-- `Channel.onClose` (a `CLOSE` from the source, or link closure): drop if
already closed; emit `error` iff the channel was never ready, always emit
`close`, reject the readiness promise.  (The manager also deletes the
channel from its registry.) -/
def chOnClose (c : CChan) (r : Val) : CChan :=
  let wasReady := c.ready
  if c.closed then c else
  let c := { c with ready := false, closed := true }
  let c := if !wasReady then { c with events := c.events ++ [CEvent.error r] } else c
  { c with events := c.events ++ [CEvent.close r],
           promise := c.promise.reject r }

/-- `Channel.close` (local close): drop if already closed; send
`CLOSE(reason)` to the source, emit `close` (and no `error`), reject the
readiness promise.  (The manager also deletes the channel from its
registry.) -/
def chClose (c : CChan) (r : Val) : CChan :=
  if c.closed then c else
  { c with ready := false, closed := true,
           sentC := c.sentC ++ [(CLIENT_CLOSE, [r])],
           events := c.events ++ [CEvent.close r],
           promise := c.promise.reject r }

/-- Result of `Channel.proxyApply` as observed by the caller: either the
returned promise is already rejected (the executor threw), or a pending
call was registered under a fresh call id. -/
inductive CallOutcome where
  | rejectedWith (msg : String)
  | registered (callId : Nat)

/-- `Channel.proxyApply`: inside the promise executor, throw
`Error("channel is closed")` if the channel is closed (rejecting the
returned promise before any listener registration or send); otherwise
allocate the next call id, register the response/close listeners and send
`CALL(callId, path, args)`. -/
def chProxyApply (c : CChan) (path : List String) (args : List Val) :
    CChan × CallOutcome :=
  if c.closed then (c, .rejectedWith "channel is closed")
  else
    let callId := c.currentCallId
    ({ c with
        currentCallId := callId + 1,
        pendingCalls := c.pendingCalls ++ [callId],
        sentC := c.sentC ++
          [(CLIENT_CALL, [.num callId, .arr (path.map .str), .arr args])] },
     .registered callId)

/-! ### Connection timeout (`ChannelManager` constructor, numeric case).

The constructor arms a timer when a numeric `connectionTimeout` is
configured and the fresh root channel is neither closed nor ready; a
`once("ready", cleanup)` listener clears the timer; at expiry the callback
runs `defaultChannel.close("timeout")`. -/

/-- A root channel together with its armed connection timer. -/
structure TimeoutMgr where
  ch : CChan
  timerArmed : Bool

/-- `new ChannelManager(connection, _, timeoutMs)` with a numeric timeout:
the root channel starts pending and the timer is armed. -/
def mkTimeoutMgr (cid : String) : TimeoutMgr :=
  { ch := { channelId := cid }, timerArmed := true }

/-- A `STATE` message for the root channel: dispatch `onState`; if that
made the channel ready, the `once("ready", cleanup)` listener clears the
timer. -/
def mgrOnState (m : TimeoutMgr) (v : Val) : TimeoutMgr :=
  let c := chOnState m.ch v
  { ch := c, timerArmed := m.timerArmed && !c.ready }

/-- A `CLOSE` (or link closure) for the root channel: dispatch `onClose`;
only the `ready` event clears the timer, so it stays armed. -/
def mgrOnClose (m : TimeoutMgr) (r : Val) : TimeoutMgr :=
  { m with ch := chOnClose m.ch r }

/-- Timer expiry: if the timer was not cleared, the callback runs
`defaultChannel.close("timeout")` (a no-op on an already-closed channel). -/
def mgrExpire (m : TimeoutMgr) : TimeoutMgr :=
  if m.timerArmed then
    { ch := chClose m.ch (.str "timeout"), timerArmed := false }
  else m

/-! ### Source endpoint (`RPCSource`, `RPCSourceChannel`, `RPCSource.start`). -/

/-- An `RPCSource` instance: state value, terminal `disposed` flag with its
stored reason, and the `autoDispose` flag set by the default handler's
class-construction path. -/
structure Src where
  state : Val := .jsUndefined
  disposed : Bool := false
  disposeReason : Val := .jsUndefined
  autoDispose : Bool := false

/-- One event emitted on an `RPCSourceChannel`'s event hub, in order. -/
inductive SEvent where
  | ready
  | error (reason : Val)
  | close (reason : Val)

/-- An `RPCSourceChannel`: the bound source (by store id), readiness and
closed flags, close reason, the readiness promise, the ordered event log,
and `#initData` (present once `#init` ran, carrying the channel id). -/
structure SrcChan where
  srcId : Nat
  ready : Bool := false
  closed : Bool := false
  closeReason : Val := .jsUndefined
  promise : PromiseSt := .pending
  events : List SEvent := []
  initData : Option String := none

/-- The state owned by one `RPCSource.start` link: the source store, the
channel-object store, the channel registry (`channels`), the subscriber
map (`subscribers`), the set of sources whose inner listeners are
attached, and the log of sent source→client messages. -/
structure SrcState where
  rootSrc : Nat := 0
  maxChannels : Option Nat := none
  nextCo : Nat := 0
  sources : List (Nat × Src) := []
  chans : List (Nat × SrcChan) := []
  registry : List (String × Nat) := []
  subscribers : List (Nat × List String) := []
  attached : List Nat := []
  sent : List WireMsg := []

/-- Channel-object lookup (objects exist independently of the registry). -/
def SrcState.getChan (st : SrcState) (co : Nat) : SrcChan :=
  (lookupK st.chans co).getD { srcId := 0 }

/-- Replace a channel object in the store. -/
def SrcState.setChan (st : SrcState) (co : Nat) (ch : SrcChan) : SrcState :=
  { st with chans := setK st.chans co ch }

/-- Source lookup. -/
def SrcState.getSrc (st : SrcState) (sid : Nat) : Src :=
  (lookupK st.sources sid).getD {}

/-- Replace a source in the store. -/
def SrcState.setSrc (st : SrcState) (sid : Nat) (s : Src) : SrcState :=
  { st with sources := setK st.sources sid s }

/-- `channels.size >= maxChannelsPerClient` (`Infinity` when `none`). -/
def SrcState.atChanLimit (st : SrcState) : Bool :=
  match st.maxChannels with
  | some m => m ≤ st.registry.length
  | none => false

/-- `list.splice(list.indexOf(x), 1)`: removes the first occurrence of `x`,
and removes the last element when `x` is absent (`indexOf` returns `-1`). -/
def spliceRemove (l : List String) (x : String) : List String :=
  if l.contains x then l.erase x else l.dropLast

/-- `RPCSource.dispose(reason)`: idempotent; set `disposed`, store the
reason, and emit the inner `dispose` event.  If this link's listener is
attached (`#onSourceDispose`), it sends `CLOSE(reason)` to the grouped
subscribers, deletes each of them from the channel registry, deletes the
subscriber-map entry and detaches the three listeners. -/
def srcDispose (st : SrcState) (sid : Nat) (reason : Val) : SrcState :=
  let s := st.getSrc sid
  if s.disposed then st else
  let st := st.setSrc sid { s with disposed := true, disposeReason := reason }
  if st.attached.contains sid then
    let st :=
      match lookupK st.subscribers sid with
      | some subs =>
        { st with
            sent := st.sent ++ [WireMsg.mk (Val.arr (subs.map Val.str)) REMOTE_CLOSE [reason]],
            registry := st.registry.filter (fun p => !(subs.contains p.1)) }
      | none => st
    { st with subscribers := removeK st.subscribers sid,
              attached := st.attached.erase sid }
  else st

/-- `RPCSourceChannel.close(reason)` (src/unnamed/part_000, lines 182-206):
idempotent; record the reason, flip `closed`, clear `ready`; emit `error`
when the channel **was** ready, then always emit `close`; reject the
readiness promise.  If the channel was never ready, send `CLOSE(reason)`
to its channel id (when `#initData` is present) and stop.  Otherwise
splice its id out of the subscriber list (detaching the listeners when the
list empties), delete it from the registry — sending `CLOSE(reason)` iff
it was still registered — and, when the source's `autoDispose` is set,
dispose the bound source with the same reason. -/
def srcClose (st : SrcState) (co : Nat) (reason : Val) : SrcState :=
  let ch := st.getChan co
  if ch.closed then st else
  let wasReady := ch.ready
  let st := st.setChan co
    { ch with
        closed := true, closeReason := reason, ready := false,
        events := ch.events ++
          (if wasReady then [SEvent.error reason] else []) ++ [SEvent.close reason],
        promise := ch.promise.reject reason }
  if !wasReady then
    match ch.initData with
    | some cid =>
      { st with sent := st.sent ++ [WireMsg.mk (Val.arr [Val.str cid]) REMOTE_CLOSE [reason]] }
    | none => st
  else
    match ch.initData with
    | none => st
    | some cid =>
      let sid := ch.srcId
      let subs' := spliceRemove ((lookupK st.subscribers sid).getD []) cid
      let st := if containsK st.subscribers sid then
          { st with subscribers := setK st.subscribers sid subs' }
        else st
      let st := if subs'.isEmpty then { st with attached := st.attached.erase sid } else st
      let deleted := containsK st.registry cid
      let st := { st with registry := removeK st.registry cid }
      let st := if deleted then
          { st with sent := st.sent ++ [WireMsg.mk (Val.arr [Val.str cid]) REMOTE_CLOSE [reason]] }
        else st
      if (st.getSrc sid).autoDispose then srcDispose st sid reason else st

/-- `RPCSourceChannel.#init(initData)` (src/unnamed/part_000, lines 56-88):
store `#initData`; if the bound source is disposed, close the channel with
the `disposeReason` passed in the init data; bail out (returning `false`)
if the channel ended up closed.  Otherwise append the channel id to the
subscriber list (attaching the three inner listeners when the entry was
absent), insert into the registry, send the initial `STATE`, mark the
channel ready, emit `ready` and resolve the readiness promise. -/
def srcInitAccessor (st : SrcState) (co : Nat) (cid : String)
    (disposeReasonArg : Val) : SrcState × Bool :=
  let ch0 := st.getChan co
  let sid := ch0.srcId
  let st := st.setChan co { ch0 with initData := some cid }
  let st := if (st.getSrc sid).disposed then srcClose st co disposeReasonArg else st
  if (st.getChan co).closed then (st, false) else
  let st :=
    if containsK st.subscribers sid then
      let grown := ((lookupK st.subscribers sid).getD []) ++ [cid]
      { st with subscribers := setK st.subscribers sid grown }
    else
      { st with subscribers := setK st.subscribers sid [cid],
                attached := st.attached ++ [sid] }
  let st := { st with registry := setK st.registry cid co }
  let st := { st with sent :=
      st.sent ++ [WireMsg.mk (Val.arr [Val.str cid]) REMOTE_STATE [(st.getSrc sid).state]] }
  let ch := st.getChan co
  let st := st.setChan co
    { ch with ready := true,
              events := ch.events ++ [SEvent.ready],
              promise := ch.promise.resolve }
  (st, true)

/-- `RPCSource.#initChannel` (src/unnamed/part_001, lines 551-579): throw
`"channels limit"` at the registry cap, throw when the channel is already
initialized; when another channel is registered under the requested id,
close that prior channel with `"channel id conflict"` and return `false`
without initializing the newcomer; otherwise run the accessor's `#init`
with the bound source's stored dispose reason. -/
def srcInitChannel (st : SrcState) (co : Nat) (cid : String) :
    Except String (SrcState × Bool) :=
  if st.atChanLimit then .error "channels limit"
  else if (st.getChan co).ready then .error "channel is already initialized"
  else
    match lookupK st.registry cid with
    | some prior => .ok (srcClose st prior (.str "channel id conflict"), false)
    | none => .ok (srcInitAccessor st co cid (st.getSrc (st.getChan co).srcId).disposeReason)

/-- `onMessageInitialize` in `RPCSource.start`: construct a fresh
`RPCSource.Channel` bound to the root source and run `#initChannel`; a
thrown error is sent back as `CLOSE([channelId], error)`. -/
def srcOnMessageInitialize (st : SrcState) (cidV : Val) : SrcState :=
  match cidV with
  | .str cid =>
    let co := st.nextCo
    let st := { st with nextCo := co + 1,
                        chans := st.chans ++ [(co, { srcId := st.rootSrc })] }
    match srcInitChannel st co cid with
    | .ok (st', _) => st'
    | .error e =>
      { st with sent := st.sent ++ [WireMsg.mk (Val.arr [Val.str cid]) REMOTE_CLOSE [Val.err e]] }
  | _ => st

/-- `operationId === CLIENT_ACTION.CREATE` on a raw wire value. -/
def isCreateOp : Val → Bool
  | .num n => n == CLIENT_CREATE
  | _ => false

/-- `onMessage` in `RPCSource.start` (src/unnamed/part_001, lines 456-473),
up to the lookup of the target channel: a 1-element message initializes, a
2-element message is ignored; otherwise the channel id is looked up and,
when absent, a `CLOSE` with a `"wrong channel"` error is sent to
`[channelId]` — and, for `CREATE`, a second such `CLOSE` whose destination
field is the **bare** `newChannelId` value (`msgArgs[0]`, not wrapped in
an array) — and nothing else happens.  For a registered channel the
message is routed onward (returned as data, since the per-action handlers
`CALL`/`NOTIFY`/`CLOSE`/`CREATE` run the user handler). -/
def srcOnMessage (st : SrcState) (msg : List Val) :
    SrcState × Option (Nat × Val × List Val) :=
  match msg with
  | [cidV] => (srcOnMessageInitialize st cidV, none)
  | [_, _] => (st, none)
  | cidV :: opV :: rest =>
    let co? := match cidV with
      | .str s => lookupK st.registry s
      | _ => none
    match co? with
    | none =>
      let st := { st with sent :=
          st.sent ++ [WireMsg.mk (Val.arr [cidV]) REMOTE_CLOSE [Val.err "wrong channel"]] }
      let st := if isCreateOp opV then
          { st with sent :=
              st.sent ++ [WireMsg.mk (rest.headD Val.jsUndefined) REMOTE_CLOSE [Val.err "wrong channel"]] }
        else st
      (st, none)
    | some co => (st, some (co, opV, rest))
  | [] => (st, none)

/-- `target instanceof RPCSource`. -/
def Val.isSource : Val → Bool
  | .source _ => true
  | _ => false

/-- The tail of `onMessageCallMethod` (src/unnamed/part_001, lines
502-515), entered once the awaited handler settles (`outcome`): on a
normal settlement, drop the response when the channel has closed during
the await, answer `"wrong data type"` when a bare source was returned for
a non-new call, otherwise send `RESPONSE_OK`; on an exceptional
settlement, send `RESPONSE_ERROR` carrying the error — with no
`channel.closed` check. -/
def srcProcessCallSettled (st : SrcState) (co : Nat) (cid : String)
    (callKey : Val) (outcome : Except Val Val) : SrcState :=
  match outcome with
  | .ok v =>
    if (st.getChan co).closed then st
    else if v.isSource then
      { st with sent := st.sent ++
          [WireMsg.mk (Val.arr [Val.str cid]) REMOTE_RESPONSE_ERROR [callKey, Val.err "wrong data type"]] }
    else
      { st with sent := st.sent ++
          [WireMsg.mk (Val.arr [Val.str cid]) REMOTE_RESPONSE_OK [callKey, v]] }
  | .error e =>
      { st with sent := st.sent ++
          [WireMsg.mk (Val.arr [Val.str cid]) REMOTE_RESPONSE_ERROR [callKey, e]] }

/-! ### Default handler path resolution (`RPCSource.createDefaultHandler`,
src/unnamed/part_001, lines 243-299). -/

/-- The reserved prototype-bridging property names. -/
def dangerPropNames : List String :=
  ["__proto__", "__defineGetter__", "__defineSetter__",
   "__lookupGetter__", "__lookupSetter__"]

/-- `typeof target === "object"` (arrays, `Error`s, `RPCSource` instances
and — notoriously — `null` are objects; functions, `undefined` and the
other primitives are not). -/
def isObjectType : Val → Bool
  | .obj _ => true
  | .arr _ => true
  | .err _ => true
  | .source _ => true
  | .jsNull => true
  | _ => false

/-- `Object.keys(target)` on a non-`null` target: own enumerable
string-keyed properties (see `jsKeysE` for the throwing behavior on
`null`). -/
def jsKeys : Val → List String
  | .obj fields => fields.map (·.1)
  | .arr l => (List.range l.length).map toString
  | _ => []

/-- `target[step]` for the values reachable after a passed key check. -/
def jsGet (t : Val) (step : String) : Val :=
  match t with
  | .obj fields => (lookupK fields step).getD .jsUndefined
  | .arr l =>
    match step.toNat? with
    | some i => l.getD i .jsUndefined
    | none => .jsUndefined
  | _ => .jsUndefined

/-- `Object.keys(target)`: throws
`TypeError("Cannot convert undefined or null to object")` when the target
is `null` (which passed the `typeof === "object"` check), otherwise the
own enumerable keys. -/
def jsKeysE : Val → Except String (List String)
  | .jsNull => .error "Cannot convert undefined or null to object"
  | v => .ok (jsKeys v)

/-- `target[step]`: throws a `TypeError` when the target is `null`,
otherwise reads the property. -/
def jsGetE (t : Val) (step : String) : Except String Val :=
  match t with
  | .jsNull =>
    .error ("Cannot read properties of null (reading \x27" ++ step ++ "\x27)")
  | v => .ok (jsGet v step)

/-- `"wrong path: "+step+" in ("+prefix+")"+path.join(".")+": "+kind`. -/
def wrongPathMsg (step pfx : String) (path : List String) (kind : String) : String :=
  "wrong path: " ++ step ++ " in (" ++ pfx ++ ")" ++
    String.intercalate "." path ++ ": " ++ kind

/-- The resolution loop of the default handler: at each step (the first
one concatenated with the configured prefix), reject reserved names with
`"forbidden step"` and typeof-non-object targets with `"not object"`;
then — except for the first step under a non-empty prefix — evaluate
`Object.keys(target)` (which throws its own `TypeError` on a `null`
target) and reject steps that are not own enumerable keys with
`"forbidden prop"`; finally read `target[step]` (which also throws on
`null`, reachable only when the key check was skipped) and descend. -/
def resolveAux (pfx : String) (fullPath : List String) :
    Val → List String → Bool → Except String Val
  | target, [], _ => .ok target
  | target, p :: rest, first =>
    let step := if first then pfx ++ p else p
    if dangerPropNames.contains step then
      .error (wrongPathMsg step pfx fullPath "forbidden step")
    else if !(isObjectType target) then
      .error (wrongPathMsg step pfx fullPath "not object")
    else if !first || pfx == "" then
      match jsKeysE target with
      | .error m => .error m
      | .ok keys =>
        if keys.contains step then
          match jsGetE target step with
          | .error m => .error m
          | .ok v => resolveAux pfx fullPath v rest false
        else .error (wrongPathMsg step pfx fullPath "forbidden prop")
    else
      match jsGetE target step with
      | .error m => .error m
      | .ok v => resolveAux pfx fullPath v rest false

/-- The full path-resolution walk over the methods tree. -/
def resolvePath (pfx : String) (methods : Val) (path : List String) :
    Except String Val :=
  resolveAux pfx path methods path true

/-- The default handler on a plain `CALL` (`newChannel = false`): resolve
the path, then require a function and apply it (application outcomes are
supplied by `applyFn`); a non-function resolution target is rejected with
`"... is not a function"`. -/
def defaultHandlerCall (pfx : String) (methods : Val)
    (applyFn : Nat → List Val → Except String Val)
    (path : List String) (args : List Val) : Except String Val :=
  match resolvePath pfx methods path with
  | .error e => .error e
  | .ok t =>
    match t with
    | .fn tag => applyFn tag args
    | _ => .error ("wrong path: (" ++ pfx ++ ")" ++
        String.intercalate "." path ++ ": is not a function")

theorem lookupK_setK_self [DecidableEq α] (l : List (α × β)) (k : α) (v : β) :
    lookupK (setK l k v) k = some v := by
  induction l with
  | nil => simp [setK, lookupK]
  | cons h t ih =>
    obtain ⟨k', v'⟩ := h
    by_cases hk : k' = k <;> simp [setK, lookupK, hk, ih]

theorem lookupK_setK_ne [DecidableEq α] (l : List (α × β)) (k k' : α) (v : β)
    (h : k ≠ k') : lookupK (setK l k v) k' = lookupK l k' := by
  induction l with
  | nil => simp [setK, lookupK, h]
  | cons hd t ih =>
    obtain ⟨k₀, v₀⟩ := hd
    by_cases hk : k₀ = k
    · subst hk; simp [setK, lookupK, h]
    · simp [setK, hk, lookupK]
      split <;> simp [ih]

/-! ### Projection lemmas for the source endpoint's close path. -/

theorem srcDispose_chans (st : SrcState) (sid : Nat) (reason : Val) :
    (srcDispose st sid reason).chans = st.chans := by
  simp only [srcDispose]
  split
  · rfl
  · split
    · split <;> rfl
    · rfl

/-- Closing a non-closed source channel updates exactly its entry in the
channel-object store, flipping the flags and appending the event log as
`close` does. -/
theorem srcClose_chans (st : SrcState) (co : Nat) (ch : SrcChan) (reason : Val)
    (hch : lookupK st.chans co = some ch) (hcl : ch.closed = false) :
    (srcClose st co reason).chans = setK st.chans co
      { ch with closed := true, closeReason := reason, ready := false,
                events := ch.events ++
                  (if ch.ready then [SEvent.error reason] else []) ++
                  [SEvent.close reason],
                promise := ch.promise.reject reason } := by
  unfold srcClose
  simp only [SrcState.getChan, SrcState.setChan, hch, Option.getD_some, hcl]
  cases hr : ch.ready <;> cases hi : ch.initData <;>
    (simp only [Bool.not_true, Bool.not_false, if_true, if_false, Bool.false_eq_true,
       ite_true, ite_false]
     repeat' split
     all_goals simp [srcDispose_chans])

/-- Closing a channel that was never ready leaves the source store alone
(the `autoDispose` line is only reached on the was-ready path). -/
theorem srcClose_sources_of_not_ready (st : SrcState) (co : Nat) (ch : SrcChan)
    (reason : Val) (hch : lookupK st.chans co = some ch) (hr : ch.ready = false) :
    (srcClose st co reason).sources = st.sources := by
  unfold srcClose
  simp only [SrcState.getChan, SrcState.setChan, hch, Option.getD_some, hr]
  split
  · rfl
  · cases hi : ch.initData <;> simp

/-- Disposing a not-yet-disposed source updates exactly its entry in the
source store. -/
theorem srcDispose_sources (st : SrcState) (sid : Nat) (reason : Val) (src : Src)
    (hsrc : lookupK st.sources sid = some src) (hnd : src.disposed = false) :
    (srcDispose st sid reason).sources =
      setK st.sources sid { src with disposed := true, disposeReason := reason } := by
  simp only [srcDispose, SrcState.getSrc, SrcState.setSrc, hsrc, Option.getD_some, hnd]
  simp only [Bool.false_eq_true, if_false]
  split
  · split
    · rfl
    · rfl
  · rfl

/-- `.sources` distributes over `if`. -/
theorem sources_ite (c : Prop) [Decidable c] (a b : SrcState) :
    (if c then a else b).sources = if c then a.sources else b.sources := by
  split <;> rfl

/-- Closing a ready, initialized channel disposes its source (with the
same reason) exactly when the source's `autoDispose` flag is set. -/
theorem srcClose_sources_of_ready (st : SrcState) (co : Nat) (ch : SrcChan)
    (reason : Val) (cid : String) (sid : Nat) (src : Src)
    (hch : lookupK st.chans co = some ch) (hcl : ch.closed = false)
    (hr : ch.ready = true) (hi : ch.initData = some cid)
    (hsid : ch.srcId = sid) (hsrc : lookupK st.sources sid = some src)
    (hnd : src.disposed = false) :
    (srcClose st co reason).sources =
      (if src.autoDispose then
        setK st.sources sid { src with disposed := true, disposeReason := reason }
      else st.sources) := by
  simp only [srcClose, SrcState.getChan, SrcState.setChan, hch, Option.getD_some,
    hcl, hr, hi, hsid, Bool.false_eq_true, if_false, Bool.not_true]
  cases had : src.autoDispose <;>
    split <;> split <;> split <;>
      simp_all [SrcState.getSrc, srcDispose_sources, hsrc, hnd, sources_ite]

/-- Closing a channel that was never handed init data leaves the source
store alone. -/
theorem srcClose_sources_of_no_init (st : SrcState) (co : Nat) (ch : SrcChan)
    (reason : Val) (hch : lookupK st.chans co = some ch)
    (hi : ch.initData = none) :
    (srcClose st co reason).sources = st.sources := by
  simp only [srcClose, SrcState.getChan, SrcState.setChan, hch, Option.getD_some, hi]
  split
  · rfl
  · split <;> rfl

/-- Concrete source-endpoint state with one ready, registered, initialized
channel (object id 0, channel id "a") bound to source 0. -/
def stReady : SrcState :=
  { sources := [(0, {})],
    chans := [(0, { srcId := 0, ready := true, promise := .resolved,
                    events := [SEvent.ready], initData := some "a" })],
    registry := [("a", 0)],
    subscribers := [(0, ["a"])],
    attached := [0] }

/-- Concrete source-endpoint state with one fresh (never-initialized)
channel object bound to an `autoDispose` source. -/
def stAutoFresh : SrcState :=
  { sources := [(0, { autoDispose := true })],
    chans := [(0, { srcId := 0 })] }

/-- Concrete source-endpoint state with one ready, registered, initialized
channel bound to an `autoDispose` source. -/
def stAutoReady : SrcState :=
  { sources := [(0, { autoDispose := true })],
    chans := [(0, { srcId := 0, ready := true, promise := .resolved,
                    events := [SEvent.ready], initData := some "a" })],
    registry := [("a", 0)],
    subscribers := [(0, ["a"])],
    attached := [0] }

/-! ### Claims about closing and its events (C1). -/

/-- **C1 (counterexample)**: at the source endpoint, closing a channel
that *was* ready emits `error` — so "`error` fires iff the channel was
never ready" is false on the transition `srcClose stReady 0 "bye"`. -/
theorem claim_C1_close_events_counterexample :
    ¬ ((SEvent.error (Val.str "bye") ∈
          ((srcClose stReady 0 (Val.str "bye")).getChan 0).events) ↔
        (stReady.getChan 0).ready = false) := by
  intro h
  have hev : ((srcClose stReady 0 (Val.str "bye")).getChan 0).events =
      [SEvent.ready, SEvent.error (Val.str "bye"), SEvent.close (Val.str "bye")] := rfl
  have hmem : SEvent.error (Val.str "bye") ∈
      ((srcClose stReady 0 (Val.str "bye")).getChan 0).events := by
    rw [hev]
    exact List.mem_cons_of_mem _ (List.mem_cons_self _ _)
  have hready : (stReady.getChan 0).ready = false := h.mp hmem
  exact absurd hready (by decide)

/-- **C1 (amended)**: on every transition to closed, `close` fires exactly
once with the close reason, at both endpoints;  `error` fires with the
same reason, but under these conditions: at the Source endpoint iff the
channel *was* ready when closed; at the Channel endpoint iff the channel
was never ready *and* the close came from the remote/link path
(`onClose`) — a local `close()` never fires `error`.  On an already-closed
channel nothing fires. -/
theorem claim_C1_close_events_amended
    (st : SrcState) (co : Nat) (ch : SrcChan) (reason : Val)
    (hch : lookupK st.chans co = some ch)
    (c : CChan) (r : Val) :
    (ch.closed = false →
      ((srcClose st co reason).getChan co).events =
        ch.events ++ (if ch.ready then [SEvent.error reason] else []) ++
          [SEvent.close reason]) ∧
    (ch.closed = true → srcClose st co reason = st) ∧
    (c.closed = false →
      (chOnClose c r).events =
        c.events ++ (if c.ready then [] else [CEvent.error r]) ++ [CEvent.close r]) ∧
    (c.closed = true → chOnClose c r = c) ∧
    (c.closed = false → (chClose c r).events = c.events ++ [CEvent.close r]) ∧
    (c.closed = true → chClose c r = c) := by
  refine ⟨?_, ?_, ?_, ?_, ?_, ?_⟩
  · intro h
    simp [SrcState.getChan, srcClose_chans st co ch reason hch h, lookupK_setK_self]
  · intro h
    simp [srcClose, SrcState.getChan, hch, h]
  · intro h
    cases hr : c.ready <;> simp [chOnClose, h, hr]
  · intro h
    simp [chOnClose, h]
  · intro h
    simp [chClose, h]
  · intro h
    simp [chClose, h]

/-- Witness for the amended C1 at concrete inputs: the ready source
channel of `stReady` closed with "bye", and a fresh pending
channel-endpoint channel remotely closed with "e". -/
theorem claim_C1_close_events_amended_witness :
    ((({ srcId := 0, ready := true, promise := .resolved,
         events := [SEvent.ready], initData := some "a" } : SrcChan).closed = false →
      ((srcClose stReady 0 (Val.str "bye")).getChan 0).events =
        [SEvent.ready] ++
          (if ({ srcId := 0, ready := true, promise := .resolved,
                 events := [SEvent.ready], initData := some "a" } : SrcChan).ready
            then [SEvent.error (Val.str "bye")] else []) ++
          [SEvent.close (Val.str "bye")]) ∧
     (({ srcId := 0, ready := true, promise := .resolved,
         events := [SEvent.ready], initData := some "a" } : SrcChan).closed = true →
       srcClose stReady 0 (Val.str "bye") = stReady) ∧
     (({ channelId := "root" } : CChan).closed = false →
       (chOnClose { channelId := "root" } (Val.str "e")).events =
         ([] : List CEvent) ++
           (if ({ channelId := "root" } : CChan).ready then []
            else [CEvent.error (Val.str "e")]) ++ [CEvent.close (Val.str "e")]) ∧
     (({ channelId := "root" } : CChan).closed = true →
       chOnClose { channelId := "root" } (Val.str "e") = { channelId := "root" }) ∧
     (({ channelId := "root" } : CChan).closed = false →
       (chClose { channelId := "root" } (Val.str "e")).events =
         ([] : List CEvent) ++ [CEvent.close (Val.str "e")]) ∧
     (({ channelId := "root" } : CChan).closed = true →
       chClose { channelId := "root" } (Val.str "e") = { channelId := "root" })) :=
  claim_C1_close_events_amended stReady 0
    { srcId := 0, ready := true, promise := .resolved,
      events := [SEvent.ready], initData := some "a" }
    (Val.str "bye") rfl { channelId := "root" } (Val.str "e")

/-! ### Claims about auto-disposal (C5). -/

/-- **C5 (counterexample)**: a fresh (never-ready) channel bound to an
`autoDispose` source, closed before initialization, does *not* dispose its
source — refuting "closing that channel for any reason, whether before or
after it became ready, disposes the bound Source". -/
theorem claim_C5_autodispose_counterexample :
    (stAutoFresh.getSrc 0).autoDispose = true ∧
    (stAutoFresh.getChan 0).ready = false ∧
    ¬ (((srcClose stAutoFresh 0 (Val.str "r")).getSrc 0).disposed = true) := by
  refine ⟨rfl, rfl, ?_⟩
  decide

/-- **C5 (amended)**: when a ready, initialized channel whose source has
`autoDispose = true` closes, the source becomes disposed with the same
reason; a channel closed before ever becoming ready leaves its source
untouched, as does closing any channel of a source without
`autoDispose`. -/
theorem claim_C5_autodispose_amended (st : SrcState) (co : Nat) (ch : SrcChan)
    (sid : Nat) (src : Src) (reason : Val) (cid : String)
    (hch : lookupK st.chans co = some ch)
    (hcl : ch.closed = false)
    (hsid : ch.srcId = sid)
    (hsrc : lookupK st.sources sid = some src)
    (hnd : src.disposed = false) :
    (ch.ready = true → ch.initData = some cid → src.autoDispose = true →
      lookupK (srcClose st co reason).sources sid =
        some { src with disposed := true, disposeReason := reason }) ∧
    (ch.ready = false → (srcClose st co reason).sources = st.sources) ∧
    (src.autoDispose = false → (srcClose st co reason).sources = st.sources) := by
  refine ⟨?_, ?_, ?_⟩
  · intro hr hi ha
    rw [srcClose_sources_of_ready st co ch reason cid sid src hch hcl hr hi hsid hsrc hnd]
    simp [ha, lookupK_setK_self]
  · intro hr
    exact srcClose_sources_of_not_ready st co ch reason hch hr
  · intro ha
    cases hr : ch.ready
    · exact srcClose_sources_of_not_ready st co ch reason hch hr
    · cases hi : ch.initData with
      | none => exact srcClose_sources_of_no_init st co ch reason hch hi
      | some cid' =>
        rw [srcClose_sources_of_ready st co ch reason cid' sid src hch hcl hr hi hsid hsrc hnd]
        simp [ha]

/-- Witness for the amended C5: closing the ready channel of `stAutoReady`
with reason "done" disposes source 0 with that reason. -/
theorem claim_C5_autodispose_amended_witness :
    ((({ srcId := 0, ready := true, promise := .resolved,
         events := [SEvent.ready], initData := some "a" } : SrcChan).ready = true →
      ({ srcId := 0, ready := true, promise := .resolved,
         events := [SEvent.ready], initData := some "a" } : SrcChan).initData = some "a" →
      ({ autoDispose := true } : Src).autoDispose = true →
      lookupK (srcClose stAutoReady 0 (Val.str "done")).sources 0 =
        some { disposed := true, disposeReason := Val.str "done", autoDispose := true }) ∧
     (({ srcId := 0, ready := true, promise := .resolved,
         events := [SEvent.ready], initData := some "a" } : SrcChan).ready = false →
       (srcClose stAutoReady 0 (Val.str "done")).sources = stAutoReady.sources) ∧
     (({ autoDispose := true } : Src).autoDispose = false →
       (srcClose stAutoReady 0 (Val.str "done")).sources = stAutoReady.sources)) :=
  claim_C5_autodispose_amended stAutoReady 0
    { srcId := 0, ready := true, promise := .resolved,
      events := [SEvent.ready], initData := some "a" }
    0 { autoDispose := true } (Val.str "done") "a" rfl rfl rfl rfl rfl

/-- Closing a ready, initialized, still-registered channel of a
non-`autoDispose` source removes exactly its registry entry and sends
exactly one `CLOSE(reason)` to `[cid]`. -/
theorem srcClose_regsent_of_ready (st : SrcState) (co : Nat) (ch : SrcChan)
    (reason : Val) (cid : String) (sid : Nat) (src : Src)
    (hch : lookupK st.chans co = some ch) (hcl : ch.closed = false)
    (hr : ch.ready = true) (hi : ch.initData = some cid)
    (hsid : ch.srcId = sid) (hsrc : lookupK st.sources sid = some src)
    (hna : src.autoDispose = false)
    (hdel : containsK st.registry cid = true) :
    (srcClose st co reason).registry = removeK st.registry cid ∧
    (srcClose st co reason).sent =
      st.sent ++ [WireMsg.mk (Val.arr [Val.str cid]) REMOTE_CLOSE [reason]] := by
  simp only [srcClose, SrcState.getChan, SrcState.setChan, hch, Option.getD_some,
    hcl, hr, hi, hsid, Bool.not_true, Bool.false_eq_true, if_false]
  constructor <;>
    (split <;> split <;>
      simp_all [SrcState.getSrc, sources_ite, hsrc, hna, hdel])

/-- Concrete source-endpoint state for the channel-id-conflict scenario:
channel object 0 is ready and registered under id "a"; channel object 1 is
a fresh newcomer about to be initialized under the same id. -/
def stConflict : SrcState :=
  { sources := [(0, {})],
    chans := [(0, { srcId := 0, ready := true, promise := .resolved,
                    events := [SEvent.ready], initData := some "a" }),
              (1, { srcId := 0 })],
    registry := [("a", 0)],
    subscribers := [(0, ["a"])],
    attached := [0] }

/-! ### Claims about the source endpoint's channel initialization. -/

/-- **C2**: initializing a new source channel under a channel id that is
still registered closes the prior channel with reason
`"channel id conflict"` and rejects the newcomer — the newcomer stays
unregistered, never ready and entirely untouched; a `CLOSE` carrying the
conflict reason goes out to `[cid]`, and a pending channel-endpoint
channel receiving that `CLOSE` fails its readiness promise with the same
reason. -/
theorem claim_C2_channel_id_conflict
    (st : SrcState) (co prior : Nat) (cid : String) (sid : Nat)
    (pch nch : SrcChan) (src : Src)
    (hreg : lookupK st.registry cid = some prior)
    (hpch : lookupK st.chans prior = some pch)
    (hpr : pch.ready = true) (hpc : pch.closed = false)
    (hpi : pch.initData = some cid) (hpsid : pch.srcId = sid)
    (hnch : lookupK st.chans co = some nch)
    (hco : co ≠ prior)
    (hlim : st.maxChannels = none)
    (hnr : nch.ready = false)
    (hsrc : lookupK st.sources sid = some src)
    (hna : src.autoDispose = false)
    (c : CChan)
    (hcr : c.ready = false) (hcc : c.closed = false) :
    ∃ stf, srcInitChannel st co cid = .ok (stf, false) ∧
      lookupK stf.chans prior = some
        { pch with closed := true, ready := false,
                   closeReason := Val.str "channel id conflict",
                   events := pch.events ++
                     [SEvent.error (Val.str "channel id conflict"),
                      SEvent.close (Val.str "channel id conflict")],
                   promise := pch.promise.reject (Val.str "channel id conflict") } ∧
      lookupK stf.chans co = some nch ∧
      stf.registry = removeK st.registry cid ∧
      stf.sent = st.sent ++
        [WireMsg.mk (Val.arr [Val.str cid]) REMOTE_CLOSE
          [Val.str "channel id conflict"]] ∧
      (chOnClose c (Val.str "channel id conflict")).promise =
        c.promise.reject (Val.str "channel id conflict") := by
  have hmain : srcInitChannel st co cid =
      .ok (srcClose st prior (Val.str "channel id conflict"), false) := by
    simp [srcInitChannel, SrcState.atChanLimit, hlim, SrcState.getChan, hnch,
      Option.getD_some, hnr, hreg]
  have hregsent := srcClose_regsent_of_ready st prior pch
    (Val.str "channel id conflict") cid sid src hpch hpc hpr hpi hpsid hsrc hna
    (by simp [containsK, hreg])
  refine ⟨srcClose st prior (Val.str "channel id conflict"), hmain, ?_, ?_,
    hregsent.1, hregsent.2, ?_⟩
  · rw [srcClose_chans st prior pch (Val.str "channel id conflict") hpch hpc]
    simp [SrcState.getChan, lookupK_setK_self, hpr]
  · rw [srcClose_chans st prior pch (Val.str "channel id conflict") hpch hpc]
    rw [lookupK_setK_ne _ _ _ _ (fun h => hco h.symm)]
    exact hnch
  · simp [chOnClose, hcc, hcr]

/-- Witness for C2 on `stConflict`: initializing newcomer object 1 under
the taken id "a" closes the prior object 0 with the conflict reason and
leaves the newcomer pending. -/
theorem claim_C2_channel_id_conflict_witness :
    ∃ stf, srcInitChannel stConflict 1 "a" = .ok (stf, false) ∧
      lookupK stf.chans 0 = some
        { srcId := 0, ready := false, closed := true,
          closeReason := Val.str "channel id conflict",
          promise := PromiseSt.resolved.reject (Val.str "channel id conflict"),
          events := [SEvent.ready] ++
            [SEvent.error (Val.str "channel id conflict"),
             SEvent.close (Val.str "channel id conflict")],
          initData := some "a" } ∧
      lookupK stf.chans 1 = some { srcId := 0 } ∧
      stf.registry = removeK stConflict.registry "a" ∧
      stf.sent = stConflict.sent ++
        [WireMsg.mk (Val.arr [Val.str "a"]) REMOTE_CLOSE
          [Val.str "channel id conflict"]] ∧
      (chOnClose { channelId := "a" } (Val.str "channel id conflict")).promise =
        PromiseSt.pending.reject (Val.str "channel id conflict") :=
  claim_C2_channel_id_conflict stConflict 1 0 "a" 0
    { srcId := 0, ready := true, promise := .resolved,
      events := [SEvent.ready], initData := some "a" }
    { srcId := 0 } {} rfl rfl rfl rfl rfl rfl rfl (by decide) rfl rfl rfl rfl
    { channelId := "a" } rfl rfl

/-- **C3**: for a source with `disposed = true`, initializing a new channel
bound to it is rejected: the fresh source channel is closed immediately
(never ready, no registry insertion, no subscriber change), its readiness
promise is rejected, and a `CLOSE` carrying the source's stored dispose
reason goes out to the requested channel id. -/
theorem claim_C3_disposed_source_rejects_init
    (st : SrcState) (co : Nat) (cid : String) (sid : Nat) (src : Src)
    (hlimit : st.maxChannels = none)
    (hch : lookupK st.chans co = some { srcId := sid })
    (hreg : lookupK st.registry cid = none)
    (hsrc : lookupK st.sources sid = some src)
    (hdisp : src.disposed = true) :
    ∃ stf, srcInitChannel st co cid = .ok (stf, false) ∧
      lookupK stf.chans co = some
        { srcId := sid, ready := false, closed := true,
          closeReason := src.disposeReason,
          promise := .rejected src.disposeReason,
          events := [SEvent.close src.disposeReason],
          initData := some cid } ∧
      stf.registry = st.registry ∧
      stf.subscribers = st.subscribers ∧
      stf.sent = st.sent ++
        [WireMsg.mk (Val.arr [Val.str cid]) REMOTE_CLOSE [src.disposeReason]] := by
  refine ⟨{ st with
      chans := setK (setK st.chans co { srcId := sid, initData := some cid }) co
        { srcId := sid, ready := false, closed := true,
          closeReason := src.disposeReason,
          promise := PromiseSt.rejected src.disposeReason,
          events := [SEvent.close src.disposeReason],
          initData := some cid },
      sent := st.sent ++
        [WireMsg.mk (Val.arr [Val.str cid]) REMOTE_CLOSE [src.disposeReason]] },
    ?_, ?_, ?_, ?_, ?_⟩ <;>
    simp [srcInitChannel, srcInitAccessor, srcClose, SrcState.atChanLimit,
      SrcState.getChan, SrcState.setChan, SrcState.getSrc, SrcState.setSrc,
      hlimit, hch, hreg, hsrc, hdisp, lookupK_setK_self, PromiseSt.reject]

/-- Witness for C3: a source disposed with reason "gone" rejects the
initialization of a fresh channel under id "seven". -/
theorem claim_C3_disposed_source_rejects_init_witness :
    ∃ stf,
      srcInitChannel
        { sources := [(0, { disposed := true, disposeReason := Val.str "gone" })],
          chans := [(0, { srcId := 0 })] } 0 "seven" = .ok (stf, false) ∧
      lookupK stf.chans 0 = some
        { srcId := 0, ready := false, closed := true,
          closeReason := Val.str "gone",
          promise := .rejected (Val.str "gone"),
          events := [SEvent.close (Val.str "gone")],
          initData := some "seven" } ∧
      stf.registry =
        ({ sources := [(0, { disposed := true, disposeReason := Val.str "gone" })],
           chans := [(0, { srcId := 0 })] } : SrcState).registry ∧
      stf.subscribers =
        ({ sources := [(0, { disposed := true, disposeReason := Val.str "gone" })],
           chans := [(0, { srcId := 0 })] } : SrcState).subscribers ∧
      stf.sent =
        ({ sources := [(0, { disposed := true, disposeReason := Val.str "gone" })],
           chans := [(0, { srcId := 0 })] } : SrcState).sent ++
        [WireMsg.mk (Val.arr [Val.str "seven"]) REMOTE_CLOSE [Val.str "gone"]] :=
  claim_C3_disposed_source_rejects_init
    { sources := [(0, { disposed := true, disposeReason := Val.str "gone" })],
      chans := [(0, { srcId := 0 })] }
    0 "seven" 0 { disposed := true, disposeReason := Val.str "gone" }
    rfl rfl rfl rfl rfl


/-! ### Path-resolution lemmas for the default handler (C7). -/

theorem str_empty_append (s : String) : "" ++ s = s := by
  cases s
  rfl

/-- Every message built by `wrongPathMsg` starts with `"wrong path: "`. -/
theorem wrongPathMsg_decomp (step pfx : String) (path : List String) (kind : String) :
    ∃ suffix, wrongPathMsg step pfx path kind = "wrong path: " ++ suffix :=
  ⟨step ++ (" in (" ++ (pfx ++ (")" ++ (String.intercalate "." path ++ (": " ++ kind))))),
    by simp [wrongPathMsg, String.append_assoc]⟩

/-- An error equal to a `wrongPathMsg` starts with `"wrong path: "`. -/
theorem exists_of_eq_wrongPathMsg (a b : String) (c : List String) (d : String)
    {e : String}
    (h : (Except.error (wrongPathMsg a b c d) : Except String Val) = Except.error e) :
    ∃ suffix, e = "wrong path: " ++ suffix := by
  injection h with h'
  obtain ⟨suffix, hs⟩ := wrongPathMsg_decomp a b c d
  exact ⟨suffix, by rw [← h', hs]⟩

/-- `Object.keys` does not throw on a non-`null` target. -/
theorem jsKeysE_ok (t : Val) (h : t ≠ Val.jsNull) :
    jsKeysE t = .ok (jsKeys t) := by
  cases t <;> simp_all [jsKeysE]

/-- Property reads do not throw on a non-`null` target. -/
theorem jsGetE_ok (t : Val) (h : t ≠ Val.jsNull) (st : String) :
    jsGetE t st = .ok (jsGet t st) := by
  cases t <;> simp_all [jsGetE]

/-- The only `Object.keys` throw is the `null` `TypeError`. -/
theorem jsKeysE_error (t : Val) (m : String) (h : jsKeysE t = .error m) :
    m = "Cannot convert undefined or null to object" := by
  cases t <;> simp_all [jsKeysE]

/-- The only property-read throw is the `null` `TypeError`. -/
theorem jsGetE_error (t : Val) (st m : String) (h : jsGetE t st = .error m) :
    m = "Cannot read properties of null (reading \x27" ++ st ++ "\x27)" := by
  cases t <;> simp_all [jsGetE]

/-- Every error the resolution loop produces either starts with
`"wrong path: "` or is one of the two `TypeError` messages raised on a
`null` target. -/
theorem resolveAux_error_classified (pfx : String) (fullPath : List String) :
    ∀ (rest : List String) (t : Val) (first : Bool) (e : String),
      resolveAux pfx fullPath t rest first = .error e →
      (∃ suffix, e = "wrong path: " ++ suffix) ∨
      e = "Cannot convert undefined or null to object" ∨
      (∃ st, e = "Cannot read properties of null (reading \x27" ++ st ++ "\x27)") := by
  intro rest
  induction rest with
  | nil =>
    intro t first e h
    simp [resolveAux] at h
  | cons p tail ih =>
    intro t first e h
    simp only [resolveAux] at h
    by_cases hnull : t = Val.jsNull
    · subst hnull
      simp only [jsKeysE, jsGetE, isObjectType, Bool.not_true,
        Bool.false_eq_true, if_false] at h
      split at h <;> (
        split at h
        · exact Or.inl (exists_of_eq_wrongPathMsg _ _ _ _ h)
        · split at h
          · injection h with h1
            exact Or.inr (Or.inl h1.symm)
          · injection h with h1
            exact Or.inr (Or.inr ⟨_, h1.symm⟩))
    · simp only [jsKeysE_ok t hnull, jsGetE_ok t hnull] at h
      split at h <;> (
        split at h
        · exact Or.inl (exists_of_eq_wrongPathMsg _ _ _ _ h)
        · split at h
          · exact Or.inl (exists_of_eq_wrongPathMsg _ _ _ _ h)
          · split at h
            · split at h
              · exact ih _ false e h
              · exact Or.inl (exists_of_eq_wrongPathMsg _ _ _ _ h)
            · exact ih _ false e h)

/-- With no prefix configured, a reserved segment anywhere in the
remaining path forces the resolution loop to reject. -/
theorem resolveAux_empty_danger (fullPath : List String) :
    ∀ (rest : List String) (t : Val) (first : Bool) (s : String),
      s ∈ rest → s ∈ dangerPropNames →
      ∃ e, resolveAux "" fullPath t rest first = .error e := by
  intro rest
  induction rest with
  | nil =>
    intro t first s hmem _
    cases hmem
  | cons p tail ih =>
    intro t first s hmem hdanger
    have hstep : (if first then "" ++ p else p) = p := by
      cases first <;> simp [str_empty_append]
    simp only [resolveAux, hstep]
    by_cases h1 : p ∈ dangerPropNames
    · exact ⟨wrongPathMsg p "" fullPath "forbidden step", by simp [h1]⟩
    · have hs : s ∈ tail := by
        rcases List.mem_cons.mp hmem with h | h
        · subst h
          exact absurd hdanger h1
        · exact h
      cases hob : isObjectType t
      · exact ⟨wrongPathMsg p "" fullPath "not object", by simp [h1, hob]⟩
      · by_cases hnull : t = Val.jsNull
        · subst hnull
          exact ⟨"Cannot convert undefined or null to object",
            by simp [h1, hob, jsKeysE]⟩
        · by_cases h3 : p ∈ jsKeys t
          · obtain ⟨e, he⟩ := ih (jsGet t p) false s hs hdanger
            exact ⟨e, by simp [h1, hob, h3, he, jsKeysE_ok t hnull,
              jsGetE_ok t hnull]⟩
          · exact ⟨wrongPathMsg p "" fullPath "forbidden prop",
              by simp [h1, hob, h3, jsKeysE_ok t hnull]⟩

/-- The methods object `{ ping(){...} }` used by the path-safety scenario. -/
def pingMethods : Val := .obj [("ping", .fn 0)]

/-! ### Claims about dropping responses after a close (C4). -/

/-- Concrete source-endpoint state whose only channel object is closed. -/
def stClosedCh : SrcState :=
  { chans := [(0, { srcId := 0, closed := true, ready := false })] }

/-- **C4 (counterexample)**: when the awaited handler settles with an
exception while the channel is already closed, a `RESPONSE_ERROR` is still
sent — refuting "no response message (neither RESPONSE_OK nor
RESPONSE_ERROR) is sent" for the exceptional settlement. -/
theorem claim_C4_drop_response_counterexample :
    ((stClosedCh.getChan 0).closed = true) ∧
    ¬ ((srcProcessCallSettled stClosedCh 0 "a" (Val.num 1)
          (.error (Val.err "boom"))).sent = stClosedCh.sent) := by
  refine ⟨rfl, ?_⟩
  simp [srcProcessCallSettled, stClosedCh]

/-- **C4 (amended)**: if the source channel is closed by the time the
awaited handler settles, a *successful* settlement is dropped (no message
at all), but an *exceptional* settlement still sends `RESPONSE_ERROR`
carrying the error for that response key. -/
theorem claim_C4_drop_response_amended (st : SrcState) (co : Nat) (cid : String)
    (callKey : Val) (v e : Val) (h : (st.getChan co).closed = true) :
    srcProcessCallSettled st co cid callKey (.ok v) = st ∧
    srcProcessCallSettled st co cid callKey (.error e) =
      { st with sent := st.sent ++
          [WireMsg.mk (Val.arr [Val.str cid]) REMOTE_RESPONSE_ERROR [callKey, e]] } := by
  constructor <;> simp [srcProcessCallSettled, h]

/-- Witness for the amended C4 at the closed channel of `stClosedCh`. -/
theorem claim_C4_drop_response_amended_witness :
    ((stClosedCh.getChan 0).closed = true) ∧
    (srcProcessCallSettled stClosedCh 0 "a" (Val.num 1) (.ok (Val.str "ok")) = stClosedCh ∧
     srcProcessCallSettled stClosedCh 0 "a" (Val.num 1) (.error (Val.err "boom")) =
       { stClosedCh with sent := stClosedCh.sent ++
           [WireMsg.mk (Val.arr [Val.str "a"]) REMOTE_RESPONSE_ERROR
             [Val.num 1, Val.err "boom"]] }) :=
  ⟨rfl, claim_C4_drop_response_amended stClosedCh 0 "a" (Val.num 1)
    (Val.str "ok") (Val.err "boom") rfl⟩

/-! ### Claims about the connection timeout (C6). -/

/-- **C6 (counterexample)**: at expiry on a still-pending root channel the
code runs the local `close("timeout")`, which emits only `close` — no
`error` event ever fires, refuting "fires `error` once and `close`
once". -/
theorem claim_C6_timeout_counterexample :
    ((mkTimeoutMgr "root").ch.ready = false ∧
     (mkTimeoutMgr "root").ch.closed = false ∧
     (mkTimeoutMgr "root").timerArmed = true) ∧
    (mgrExpire (mkTimeoutMgr "root")).ch.events = [CEvent.close (Val.str "timeout")] ∧
    ¬ (∃ r, CEvent.error r ∈ (mgrExpire (mkTimeoutMgr "root")).ch.events) := by
  refine ⟨⟨rfl, rfl, rfl⟩, rfl, ?_⟩
  rintro ⟨r, hr⟩
  have hev : (mgrExpire (mkTimeoutMgr "root")).ch.events =
      [CEvent.close (Val.str "timeout")] := rfl
  rw [hev] at hr
  rcases List.mem_singleton.mp hr with h
  exact CEvent.noConfusion h

/-- **C6 (amended)**: at expiry a still-pending root channel (its timer
still armed) closes with reason `"timeout"`: it fires `close` exactly once
(and no `error`), rejects its readiness promise with `"timeout"`, and
sends `CLOSE("timeout")` on the wire.  A channel that became ready had its
timer cleared by the `ready` cleanup, and an unarmed timer never closes
anything at expiry. -/
theorem claim_C6_timeout_amended (m m' : TimeoutMgr) (v : Val) :
    (m.ch.ready = false → m.ch.closed = false → m.timerArmed = true →
      (mgrExpire m).ch.closed = true ∧
      (mgrExpire m).ch.events = m.ch.events ++ [CEvent.close (Val.str "timeout")] ∧
      (mgrExpire m).ch.promise = m.ch.promise.reject (Val.str "timeout") ∧
      (mgrExpire m).ch.sentC = m.ch.sentC ++ [(CLIENT_CLOSE, [Val.str "timeout"])]) ∧
    ((mgrOnState m' v).ch.ready = true → (mgrOnState m' v).timerArmed = false) ∧
    (m'.timerArmed = false → mgrExpire m' = m') := by
  refine ⟨?_, ?_, ?_⟩
  · intro hr hc ha
    refine ⟨?_, ?_, ?_, ?_⟩ <;> simp [mgrExpire, chClose, ha, hc]
  · intro h
    simp only [mgrOnState] at h ⊢
    simp [h]
  · intro h
    simp [mgrExpire, h]

/-- Witness for the amended C6 at a fresh pending root manager. -/
theorem claim_C6_timeout_amended_witness :
    (((mkTimeoutMgr "root").ch.ready = false → (mkTimeoutMgr "root").ch.closed = false →
       (mkTimeoutMgr "root").timerArmed = true →
      (mgrExpire (mkTimeoutMgr "root")).ch.closed = true ∧
      (mgrExpire (mkTimeoutMgr "root")).ch.events =
        (mkTimeoutMgr "root").ch.events ++ [CEvent.close (Val.str "timeout")] ∧
      (mgrExpire (mkTimeoutMgr "root")).ch.promise =
        (mkTimeoutMgr "root").ch.promise.reject (Val.str "timeout") ∧
      (mgrExpire (mkTimeoutMgr "root")).ch.sentC =
        (mkTimeoutMgr "root").ch.sentC ++ [(CLIENT_CLOSE, [Val.str "timeout"])]) ∧
     ((mgrOnState (mkTimeoutMgr "root") (Val.str "s")).ch.ready = true →
       (mgrOnState (mkTimeoutMgr "root") (Val.str "s")).timerArmed = false) ∧
     ((mkTimeoutMgr "root").timerArmed = false →
       mgrExpire (mkTimeoutMgr "root") = mkTimeoutMgr "root")) :=
  claim_C6_timeout_amended (mkTimeoutMgr "root") (mkTimeoutMgr "root") (Val.str "s")

/-! ### Claims about the channel endpoint's state dispatch and proxy calls. -/

/-- **C8**: on the Channel endpoint, for every (non-closed, hence
registered) channel, processing its first `STATE` message appends `ready`
strictly before the single-argument `state` emission carrying the new
state; every subsequent `STATE` appends `state(newState, oldState)`; and
immediately after the dispatch returns, `channel.state` equals the
delivered value. -/
theorem claim_C8_state_order (c : CChan) (v : Val) (h : c.closed = false) :
    (chOnState c v).state = v ∧
    (c.ready = false →
      (chOnState c v).events = c.events ++ [CEvent.ready, CEvent.stateFirst v] ∧
      (chOnState c v).ready = true ∧
      (chOnState c v).promise = c.promise.resolve) ∧
    (c.ready = true →
      (chOnState c v).events = c.events ++ [CEvent.stateNext v c.state]) := by
  cases hr : c.ready <;> simp [chOnState, h, hr]

/-- Witness for C8 at a fresh pending channel receiving its first state. -/
theorem claim_C8_state_order_witness :
    (({ channelId := "root" } : CChan).closed = false) ∧
    ((chOnState { channelId := "root" } (Val.str "s0")).state = Val.str "s0" ∧
      (({ channelId := "root" } : CChan).ready = false →
        (chOnState { channelId := "root" } (Val.str "s0")).events =
          ({ channelId := "root" } : CChan).events ++
            [CEvent.ready, CEvent.stateFirst (Val.str "s0")] ∧
        (chOnState { channelId := "root" } (Val.str "s0")).ready = true ∧
        (chOnState { channelId := "root" } (Val.str "s0")).promise =
          ({ channelId := "root" } : CChan).promise.resolve) ∧
      (({ channelId := "root" } : CChan).ready = true →
        (chOnState { channelId := "root" } (Val.str "s0")).events =
          ({ channelId := "root" } : CChan).events ++
            [CEvent.stateNext (Val.str "s0") ({ channelId := "root" } : CChan).state])) :=
  ⟨rfl, claim_C8_state_order { channelId := "root" } (Val.str "s0") rfl⟩

/-- **C10**: invoking a remote method through the proxy on a channel whose
`closed` flag is true returns a promise rejected with
`Error("channel is closed")` and leaves the channel untouched: no `CALL`
message is sent and no pending-call entry is registered. -/
theorem claim_C10_call_on_closed (c : CChan) (path : List String)
    (args : List Val) (h : c.closed = true) :
    chProxyApply c path args = (c, CallOutcome.rejectedWith "channel is closed") := by
  simp [chProxyApply, h]

/-- Witness for C10 at a concrete closed channel. -/
theorem claim_C10_call_on_closed_witness :
    (({ channelId := "root", closed := true } : CChan).closed = true) ∧
    chProxyApply { channelId := "root", closed := true } ["ping"] [] =
      ({ channelId := "root", closed := true }, CallOutcome.rejectedWith "channel is closed") :=
  ⟨rfl, claim_C10_call_on_closed { channelId := "root", closed := true } ["ping"] [] rfl⟩

/-! ### Claims about default-handler path safety (C7). -/

/-- **C7 (counterexample)**: with methods `{ a: null }` and path
`["a","b"]`, the walk reaches `target = null` at step `"b"`: `typeof null
=== "object"` passes the not-object check and `Object.keys(null)` throws
`TypeError("Cannot convert undefined or null to object")` — a resolution
rejection whose message does not contain `"wrong path"`, although `"b"` is
not an own enumerable property of the current target.  This refutes the
claim's universal "rejects with an error whose message contains
`wrong path`" clause. -/
theorem claim_C7_path_safety_counterexample :
    resolvePath "" (Val.obj [("a", Val.jsNull)]) ["a", "b"] =
      .error "Cannot convert undefined or null to object" ∧
    ¬ ("wrong path".data <:+: "Cannot convert undefined or null to object".data) ∧
    "b" ∉ jsKeys Val.jsNull := by
  refine ⟨rfl, by decide, ?_⟩
  simp [jsKeys]

/-- **C7 (amended)**: under default (no-prefix) path resolution, a
reserved prototype-bridging segment (including `__proto__`) anywhere in
the path forces a rejection; a typeof-non-object intermediate rejects with
a `"wrong path: ...: not object"` error; a step that is not an own
enumerable key of a non-`null` object target rejects with
`"wrong path: ...: forbidden prop"`; but a `null` intermediate target
(`typeof "object"`) is rejected through `Object.keys` throwing
`TypeError("Cannot convert undefined or null to object")`, whose message
does not mention `"wrong path"`.  Every resolution failure message either
starts with `"wrong path: "` or is one of the two `null` `TypeError`
messages.  In particular, on `{ ping }` the paths `["__proto__"]`,
`["constructor"]` and `["ping","call"]` are rejected with
`"wrong path: ..."` errors, and the exceptional settlement of such a
`CALL` sends a `RESPONSE_ERROR` carrying the error while leaving the
endpoint state — hence the channel's readiness — untouched. -/
theorem claim_C7_path_safety
    (m : Val) (path : List String) (e : String) (s step : String)
    (t : Val) (rest : List String) (first : Bool)
    (applyFn : Nat → List Val → Except String Val) (args : List Val) :
    (resolvePath "" m path = .error e →
      (∃ suffix, e = "wrong path: " ++ suffix) ∨
      e = "Cannot convert undefined or null to object" ∨
      (∃ st, e = "Cannot read properties of null (reading \x27" ++ st ++ "\x27)")) ∧
    (s ∈ path → s ∈ dangerPropNames →
      ∃ e', resolvePath "" m path = .error e') ∧
    (step ∉ dangerPropNames → isObjectType t = false →
      resolveAux "" path t (step :: rest) first =
        .error (wrongPathMsg step "" path "not object")) ∧
    (step ∉ dangerPropNames → isObjectType t = true → t ≠ Val.jsNull →
      step ∉ jsKeys t →
      resolveAux "" path t (step :: rest) first =
        .error (wrongPathMsg step "" path "forbidden prop")) ∧
    (step ∉ dangerPropNames →
      resolveAux "" path Val.jsNull (step :: rest) first =
        .error "Cannot convert undefined or null to object") ∧
    (defaultHandlerCall "" pingMethods applyFn ["__proto__"] args =
      .error (wrongPathMsg "__proto__" "" ["__proto__"] "forbidden step")) ∧
    (defaultHandlerCall "" pingMethods applyFn ["constructor"] args =
      .error (wrongPathMsg "constructor" "" ["constructor"] "forbidden prop")) ∧
    (defaultHandlerCall "" pingMethods applyFn ["ping", "call"] args =
      .error (wrongPathMsg "call" "" ["ping", "call"] "not object")) ∧
    (∀ (st : SrcState) (co : Nat) (cid : String) (callKey : Val) (msg : String),
      srcProcessCallSettled st co cid callKey (.error (Val.err msg)) =
        { st with sent := st.sent ++
            [WireMsg.mk (Val.arr [Val.str cid]) REMOTE_RESPONSE_ERROR
              [callKey, Val.err msg]] }) := by
  refine ⟨?_, ?_, ?_, ?_, ?_, ?_, ?_, ?_, ?_⟩
  · exact resolveAux_error_classified "" path path m true e
  · intro hmem hdanger
    exact resolveAux_empty_danger path path m true s hmem hdanger
  · intro hd ho
    have hstep : (if first then "" ++ step else step) = step := by
      cases first <;> simp [str_empty_append]
    simp only [resolveAux, hstep]
    simp [hd, ho]
  · intro hd ho hnull hk
    have hstep : (if first then "" ++ step else step) = step := by
      cases first <;> simp [str_empty_append]
    simp only [resolveAux, hstep]
    simp [hd, ho, hk, jsKeysE_ok t hnull]
  · intro hd
    have hstep : (if first then "" ++ step else step) = step := by
      cases first <;> simp [str_empty_append]
    simp only [resolveAux, hstep]
    simp [hd, isObjectType, jsKeysE]
  · rfl
  · rfl
  · rfl
  · intro st co cid callKey msg
    rfl

/-- Witness for the amended C7 at the concrete scenario inputs: the
reserved path `["__proto__"]` on `{ ping }`, the non-own step
`"constructor"`, the non-object step `"call"` under `ping`, and the
`null` target at step `"b"`. -/
theorem claim_C7_path_safety_witness :
    (∃ suffix, wrongPathMsg "__proto__" "" ["__proto__"] "forbidden step" =
        "wrong path: " ++ suffix) ∧
    (∃ e', resolvePath "" pingMethods ["__proto__"] = .error e') ∧
    (resolveAux "" ["ping", "call"] (Val.fn 0) ["call"] false =
      .error (wrongPathMsg "call" "" ["ping", "call"] "not object")) ∧
    (resolveAux "" ["constructor"] pingMethods ["constructor"] false =
      .error (wrongPathMsg "constructor" "" ["constructor"] "forbidden prop")) ∧
    (resolveAux "" ["a", "b"] Val.jsNull ["b"] false =
      .error "Cannot convert undefined or null to object") := by
  have h := claim_C7_path_safety pingMethods ["__proto__"]
    (wrongPathMsg "__proto__" "" ["__proto__"] "forbidden step") "__proto__" "call"
    (Val.fn 0) [] false (fun _ _ => .ok Val.jsUndefined) []
  have h2 := claim_C7_path_safety pingMethods ["constructor"]
    "" "constructor" "constructor" pingMethods [] false
    (fun _ _ => .ok Val.jsUndefined) []
  have h3 := claim_C7_path_safety pingMethods ["ping", "call"]
    "" "call" "call" (Val.fn 0) [] false (fun _ _ => .ok Val.jsUndefined) []
  have h4 := claim_C7_path_safety pingMethods ["a", "b"]
    "" "b" "b" Val.jsNull [] false (fun _ _ => .ok Val.jsUndefined) []
  refine ⟨?_, h.2.1 (by simp) (by simp [dangerPropNames]), ?_, ?_, ?_⟩
  · obtain ⟨suffix, hs⟩ := wrongPathMsg_decomp "__proto__" "" ["__proto__"]
      "forbidden step"
    exact ⟨suffix, hs⟩
  · exact h3.2.2.1 (by simp [dangerPropNames]) rfl
  · exact h2.2.2.2.1 (by simp [dangerPropNames]) rfl
      (by simp [pingMethods]) (by simp [jsKeys, pingMethods])
  · exact h4.2.2.2.2.1 (by simp [dangerPropNames])

/-! ### Claim about unknown-channel messages (C9). -/

/-- **C9**: an inbound message of length ≥ 3 whose channel id is absent
from the registry makes the endpoint send a `CLOSE` with a
`"wrong channel"` error to the one-element array `[channelId]`, and — when
the action is `CREATE` — a second such `CLOSE` whose destination field is
the *bare* `newChannelId` value, **not** the one-element array
`[newChannelId]` that the wire contract prescribes; nothing else happens
(no routing).  Evaluated at the failing input
`["X", CREATE, "Y", [], []]` on an empty registry. -/
theorem claim_C9_unknown_channel_create_bare_dest :
    srcOnMessage {} [Val.str "X", Val.num CLIENT_CREATE, Val.str "Y",
        Val.arr [], Val.arr []] =
      ({ ({} : SrcState) with sent :=
          [WireMsg.mk (Val.arr [Val.str "X"]) REMOTE_CLOSE [Val.err "wrong channel"],
           WireMsg.mk (Val.str "Y") REMOTE_CLOSE [Val.err "wrong channel"]] }, none) ∧
    ¬ ((WireMsg.mk (Val.str "Y") REMOTE_CLOSE [Val.err "wrong channel"]).dest =
        Val.arr [Val.str "Y"]) := by
  refine ⟨rfl, ?_⟩
  intro h
  exact Val.noConfusion h

end StatefulRpc
